import Mathlib

/-!
Verification of the Probability record of src/include/calculator/entities/probability.h
(repository 10Narratives/Calculator).

The header defines a single class template Probability<EventName, Value> (Value
constrained to floating-point types by the probability_t concept) holding two members,
event_name_ and value_, with accessors, overloaded setters, ChangeValue, Swap, a
defaulted three-way comparison, and a free factory CreateProbability.

The embedding below is a shallow, purely functional one: each member function becomes a
Lean function from the record (and its arguments) to the updated record.  The generic
parameters stay generic; claims about concrete behaviour are instantiated at
EventName := String and Value := ℚ (the arithmetic the claims exercise — adding 0.2 to
0.3, adding 1 or -1 to 0.5 — is exact in IEEE double as well, so rational arithmetic
agrees with the C++ instantiation at those points).
-/

set_option autoImplicit false

namespace Calculator.Entities

universe u v

/-- Embeds the class template Probability<EventName, Value> of probability.h: a record
pairing an event name with a probability value.  The C++ concept probability_t only
restricts Value to floating-point types; no member function below needs more than the
ability to store a Value and, for ChangeValue, to add two of them, so Value is kept as
an arbitrary type parameter. -/
structure Probability (EventName : Type u) (Value : Type v) where
  event_name_ : EventName
  value_ : Value

section Defs

variable {EventName : Type u} {Value : Type v}

/-- Embeds GetEventName: returns the current event name by value.  No side effect. -/
def Probability.GetEventName (p : Probability EventName Value) : EventName :=
  p.event_name_

/-- Embeds GetValue: returns the current probability value by value.  No side effect. -/
def Probability.GetValue (p : Probability EventName Value) : Value :=
  p.value_

/-- Embeds the rvalue overload SetEventName(EventName&&): assigns the argument into the
member event_name_, leaving value_ untouched. -/
def Probability.SetEventNameMove (p : Probability EventName Value)
    (new_event_name : EventName) : Probability EventName Value :=
  ⟨new_event_name, p.value_⟩

/-- Embeds the lvalue overload SetEventName(const EventName&).  Its body copies the
argument into a local, but then calls SetEventName(std::move(new_event_name)) on the
const parameter itself rather than on the copy.  std::move of a const lvalue produces a
const rvalue, to which the EventName&& overload cannot bind, so overload resolution
selects this same const-reference overload again: the call recurses forever with the
record and the argument unchanged, and never assigns event_name_.  The recursion is
embedded with explicit fuel; no amount of fuel produces a result. -/
def Probability.SetEventNameCopy (fuel : Nat) (p : Probability EventName Value)
    (new_event_name : EventName) : Option (Probability EventName Value) :=
  match fuel with
  | 0 => none
  | Nat.succ n => Probability.SetEventNameCopy n p new_event_name

/-- Embeds the rvalue overload SetValue(Value&&): assigns the argument into the member
value_, leaving event_name_ untouched. -/
def Probability.SetValueMove (p : Probability EventName Value) (new_value : Value) :
    Probability EventName Value :=
  ⟨p.event_name_, new_value⟩

/-- Embeds the lvalue overload SetValue(const Value&): copies the argument into the
local value_copy and delegates to the rvalue overload with that copy (unlike the
SetEventName twin, this one moves from the copy, so it terminates). -/
def Probability.SetValueCopy (p : Probability EventName Value) (new_value : Value) :
    Probability EventName Value :=
  let value_copy := new_value
  p.SetValueMove value_copy

/-- Embeds ChangeValue(const Value&): value_ += value_changing, with no validation of
the result. -/
def Probability.ChangeValue [Add Value] (p : Probability EventName Value)
    (value_changing : Value) : Probability EventName Value :=
  ⟨p.event_name_, p.value_ + value_changing⟩

/-- Embeds Swap: std::swap on event_name_, then std::swap on value_.  The returned pair
is (this, other) after the exchange. -/
def Probability.Swap (p other : Probability EventName Value) :
    Probability EventName Value × Probability EventName Value :=
  (⟨other.event_name_, other.value_⟩, ⟨p.event_name_, p.value_⟩)

/-- Modelled from the spec: the two-argument constructors
Probability(const EventName&, const Value&) and Probability(EventName&&, Value&&) are
declared in probability.h but their bodies are absent from the repository sources (the
header defines out of line only Swap and CreateProbability).  The spec states that
construction from (name, value) "stores both fields directly" with no validation, for
both the by-copy and the by-move overload. -/
def Probability.construct (name : EventName) (value : Value) :
    Probability EventName Value :=
  ⟨name, value⟩

/-- Embeds Probability() = default together with the member declarations, which carry
no default member initializers.  Default-initialization of the member event_name_ runs
the default constructor of its (class) type, modelled by Inhabited.default;
default-initialization of the member value_, of scalar floating-point type, performs no
initialization and leaves it indeterminate, modelled by the explicit parameter g for
the contents the storage happens to hold. -/
def Probability.DefaultConstruct [Inhabited EventName] (g : Value) :
    Probability EventName Value :=
  ⟨default, g⟩

/-- Embeds the body of the free function CreateProbability(event_name, value):
default-construct a record, assign event_name_, assign value_, return it.  As written
in the source the function is ill-formed whenever it is instantiated, because it writes
the private members event_name_ and value_ of Probability without being a friend of the
class; this definition gives the runtime semantics of the body as written, with the
indeterminate default-initialized value_ member modelled by the parameter g exactly as
in Probability.DefaultConstruct. -/
def CreateProbability [Inhabited EventName] (g : Value) (event_name : EventName)
    (value : Value) : Probability EventName Value :=
  let new_instance : Probability EventName Value := Probability.DefaultConstruct g
  let new_instance : Probability EventName Value := ⟨event_name, new_instance.value_⟩
  let new_instance : Probability EventName Value := ⟨new_instance.event_name_, value⟩
  new_instance

end Defs

/-- Claim C1, failing execution.  The lvalue overload SetEventName(const EventName&)
never terminates — std::move on its const parameter re-selects the same overload, so
the call recurses forever and never stores the name: at the concrete record ("", 0)
with argument "rain" it yields no result for any recursion fuel.  The rvalue overload,
by contrast, does store the argument as the claim describes. -/
theorem C1_setEventNameCopy_diverges :
    (∀ fuel : Nat,
        Probability.SetEventNameCopy fuel (⟨"", (0 : ℚ)⟩ : Probability String ℚ) "rain"
          = none)
    ∧ (Probability.SetEventNameMove (⟨"", (0 : ℚ)⟩ : Probability String ℚ)
        "rain").GetEventName = "rain" := by
  constructor
  · intro fuel
    induction fuel with
    | zero => rfl
    | succ n ih => simpa [Probability.SetEventNameCopy] using ih
  · rfl

/-- Claim C2: for every record and every value, SetValue followed by GetValue returns
exactly the value that was set, through either overload.  The value type is an
arbitrary type parameter and the operation merely stores the argument, so the statement
covers every floating-point datum — negative, outside [0,1], or a NaN payload — with no
validation, clamping or rejection anywhere. -/
theorem C2_setValue_getValue_roundtrip :
    ∀ (EventName Value : Type) (p : Probability EventName Value) (v : Value),
      (p.SetValueCopy v).GetValue = v ∧ (p.SetValueMove v).GetValue = v := by
  intro _ _ _ _
  exact ⟨rfl, rfl⟩

/-- Claim C3: constructing a record from (name, value) and then reading both accessors
returns exactly name and value.  The constructor bodies are absent from the repository
sources, so the construction is modelled from the spec (see Probability.construct);
the spec gives by-copy and by-move construction the same stored result. -/
theorem C3_construct_roundtrip :
    ∀ (EventName Value : Type) (name : EventName) (value : Value),
      (Probability.construct name value).GetEventName = name
        ∧ (Probability.construct name value).GetValue = value := by
  intro _ _ _ _
  exact ⟨rfl, rfl⟩

/-- Claim C4: ChangeValue adds the delta to the stored value — afterwards GetValue
equals old + d for the addition of the value type — and no validation of the result is
performed: concrete inputs drive the stored value below 0 and above 1 with no error
signalled. -/
theorem C4_changeValue_adds :
    (∀ (EventName Value : Type) [Add Value] (p : Probability EventName Value)
        (d : Value), (p.ChangeValue d).GetValue = p.GetValue + d)
    ∧ ((⟨"A", (1 : ℚ)/2⟩ : Probability String ℚ).ChangeValue (-1)).GetValue < 0
    ∧ (1 : ℚ) < ((⟨"A", (1 : ℚ)/2⟩ : Probability String ℚ).ChangeValue 1).GetValue := by
  refine ⟨fun _ _ _ _ _ => rfl, ?_, ?_⟩ <;>
    norm_num [Probability.ChangeValue, Probability.GetValue]

/-- Claim C5: after a.Swap(b) the first record holds the original fields of b and the
second the original fields of a; swapping the two results again restores (a, b); Swap
is a total function that never fails. -/
theorem C5_swap_exchanges :
    ∀ (EventName Value : Type) (a b : Probability EventName Value),
      ((a.Swap b).1.GetEventName = b.GetEventName
          ∧ (a.Swap b).1.GetValue = b.GetValue
          ∧ (a.Swap b).2.GetEventName = a.GetEventName
          ∧ (a.Swap b).2.GetValue = a.GetValue)
        ∧ (a.Swap b).1.Swap (a.Swap b).2 = (a, b) := by
  intro _ _ a b
  exact ⟨⟨rfl, rfl, rfl, rfl⟩, rfl⟩

/-- Claim C7, body evaluation at the failing input: were the private-member accesses
inside CreateProbability legal, its body would return exactly the record of direct
construction — evaluated here at ("rain", 0.3), for every possible indeterminate
content g of the default-constructed value_ member.  The C++ call itself is ill-formed:
CreateProbability writes private members of Probability without friendship. -/
theorem C7_createProbability_eval :
    ∀ g : ℚ,
      CreateProbability g "rain" ((3 : ℚ)/10)
        = Probability.construct "rain" ((3 : ℚ)/10) := by
  intro _
  rfl

/-- Claim C8, scenario evaluation modulo the ill-formed first step: running the body of
CreateProbability at ("rain", 0.3), then ChangeValue(0.2), then SetEventName("storm")
through the rvalue overload (the overload a string literal selects), produces the
observations the scenario expects.  In C++ the first step does not compile (private
member access in CreateProbability).  The literals 0.3 and 0.2 round to doubles whose
exact sum is 0.5, so the rational arithmetic used here agrees with IEEE double. -/
theorem C8_scenario_eval :
    ∀ g : ℚ,
      (CreateProbability g "rain" ((3 : ℚ)/10)).GetEventName = "rain"
      ∧ (CreateProbability g "rain" ((3 : ℚ)/10)).GetValue = (3 : ℚ)/10
      ∧ ((CreateProbability g "rain" ((3 : ℚ)/10)).ChangeValue
          ((2 : ℚ)/10)).GetValue = (1 : ℚ)/2
      ∧ (((CreateProbability g "rain" ((3 : ℚ)/10)).ChangeValue
          ((2 : ℚ)/10)).SetEventNameMove "storm").GetEventName = "storm" := by
  intro _
  refine ⟨rfl, rfl, ?_, rfl⟩
  norm_num [CreateProbability, Probability.DefaultConstruct, Probability.ChangeValue,
    Probability.GetValue]

/-- Claim C9, counterexample: a default-constructed record whose indeterminate value_
member happens to hold 1 reads back 1, not 0.  The members carry no default member
initializers, so Probability() = default default-initializes them, which for the scalar
value_ member performs no initialization at all: the claim that the value is zero is
false for this execution. -/
theorem C9_default_value_not_zero :
    (Probability.DefaultConstruct (1 : ℚ) : Probability String ℚ).GetValue ≠ 0 := by
  norm_num [Probability.DefaultConstruct, Probability.GetValue]

/-- Claim C9 as amended: default construction default-initializes both members; the
event name of class type reads back the default value of its type (the empty string for
String), while the floating-point value member is left indeterminate and reads back
whatever content the storage held, with no guarantee of zero. -/
theorem C9_default_construct :
    ∀ g : ℚ,
      (Probability.DefaultConstruct g : Probability String ℚ).GetEventName = ""
        ∧ (Probability.DefaultConstruct g : Probability String ℚ).GetValue = g := by
  intro _
  exact ⟨rfl, rfl⟩

/-- Claim C10: every mutator touches only its own field.  Both SetValue overloads and
ChangeValue leave the event name unchanged; the rvalue SetEventName overload leaves the
value unchanged; and each unfolding of the recursive lvalue SetEventName overload
passes the record through completely unchanged — it never writes value_ (indeed it
never writes anything: it does not terminate, see claim C1). -/
theorem C10_mutators_frame :
    (∀ (EventName Value : Type) (p : Probability EventName Value) (v : Value),
        (p.SetValueCopy v).GetEventName = p.GetEventName
          ∧ (p.SetValueMove v).GetEventName = p.GetEventName)
    ∧ (∀ (EventName Value : Type) [Add Value] (p : Probability EventName Value)
        (d : Value), (p.ChangeValue d).GetEventName = p.GetEventName)
    ∧ (∀ (EventName Value : Type) (p : Probability EventName Value) (n : EventName),
        (p.SetEventNameMove n).GetValue = p.GetValue)
    ∧ (∀ (EventName Value : Type) (fuel : Nat) (p : Probability EventName Value)
        (n : EventName),
        Probability.SetEventNameCopy (fuel + 1) p n
          = Probability.SetEventNameCopy fuel p n) := by
  exact ⟨fun _ _ _ _ => ⟨rfl, rfl⟩, fun _ _ _ _ _ => rfl, fun _ _ _ _ => rfl,
    fun _ _ _ _ _ => rfl⟩

end Calculator.Entities
